import Mathlib

/-!
Verification of the tabular-to-gridded assembly pipeline of the MetSim
tutorial notebooks (shallow embedding).

Floating-point values are modelled as exact rationals (`ℚ`); the pandas
NaN produced by `Series.diff()` at position 0 (and propagated by scalar
arithmetic) is modelled as `none : Option ℚ`.
-/

set_option maxRecDepth 8000

namespace MetSimTut

/-- `Series.diff()` on the tail of a series, given the previous value `p`:
each entry is the difference to its predecessor. -/
def diffAux (p : ℚ) : List ℚ → List (Option ℚ)
  | [] => []
  | y :: rest => some (y - p) :: diffAux y rest

/-- pandas `Series.diff()`: the first entry is NaN (`none`), every later
entry is the difference to the previous entry. -/
def diff : List ℚ → List (Option ℚ)
  | [] => []
  | x :: rest => none :: diffAux x rest

/-- `.values[1:]` applied to the differenced series: the N−1 increments
(the undefined first entry is discarded). -/
def incrOpt (xs : List ℚ) : List (Option ℚ) := (diff xs).drop 1

/-- The inches → millimeters conversion `* 25.4` (notebook comment
`# Convert to mm`). -/
def inchToMm (v : ℚ) : ℚ := v * (254 / 10)

/-- Notebook line `prec_vals = df['PREC.I-1 (in) '].diff().values[1:] * 25.4`
(forcing dataset). NaN entries would stay NaN under the scalar multiply. -/
def prec_vals_forcing (cum : List ℚ) : List (Option ℚ) :=
  ((diff cum).drop 1).map (Option.map inchToMm)

/-- Python slice `xs[-k:]`: the last `k` entries, the whole list when it is
shorter than `k`. -/
def takeLast (k : Nat) (xs : List α) : List α := xs.drop (xs.length - k)

/-- Notebook line `prec_vals = df['PREC.I-1 (in) '].diff().values[-90:] * 25.4`
(state dataset). -/
def prec_vals_state (cum : List ℚ) : List (Option ℚ) :=
  (takeLast 90 (diff cum)).map (Option.map inchToMm)

/-- Notebook lines `tmin_vals = df['TMIN.D-1 (degC) '].values[1:]` and
`tmax_vals = df['TMAX.D-1 (degC) '].values[1:]` (forcing dataset):
temperatures are not differenced, but the first raw row is discarded. -/
def temp_vals_forcing (raw : List ℚ) : List ℚ := raw.drop 1

/-- Notebook lines `tmin_vals = df['TMIN.D-1 (degC) '].values[-90:]` etc.
(state dataset): the trailing 90 raw temperature entries. -/
def temp_vals_state (raw : List ℚ) : List ℚ := takeLast 90 raw

/-! ## Calendar model for `pd.date_range` -/

/-- Gregorian leap-year test. -/
def isLeap (y : Nat) : Bool := y % 4 == 0 && (y % 100 != 0 || y % 400 == 0)

/-- Days in month `m` (1–12) of year `y`. -/
def daysInMonth (y m : Nat) : Nat :=
  if m = 2 then (if isLeap y then 29 else 28)
  else if m = 4 ∨ m = 6 ∨ m = 9 ∨ m = 11 then 30
  else 31

/-- Days in year `y` strictly before month `m`. -/
def daysBeforeMonth (y m : Nat) : Nat :=
  ((List.range (m - 1)).map (fun i => daysInMonth y (i + 1))).sum

/-- Day ordinal (proleptic Gregorian rata die) of the date `y-m-d`. -/
def toOrd (y m d : Nat) : Nat :=
  365 * (y - 1) + (y - 1) / 4 - (y - 1) / 100 + (y - 1) / 400
    + daysBeforeMonth y m + d

/-- `pd.date_range(start, stop)` with daily frequency, as the list of day
ordinals from `lo` to `hi` inclusive. -/
def dateRangeOrd (lo hi : Nat) : List Nat :=
  (List.range (hi + 1 - lo)).map (lo + ·)

/-- Notebook line `dates = pd.date_range('1/1/2010', '12/31/2010')`
(forcing time axis). -/
def forcing_dates : List Nat := dateRangeOrd (toOrd 2010 1 1) (toOrd 2010 12 31)

/-- Notebook line `dates = pd.date_range('10/3/2009', '12/31/2009')`
(state time axis). -/
def state_dates : List Nat := dateRangeOrd (toOrd 2009 10 3) (toOrd 2009 12 31)

/-! ## numpy array initialization and slice assignment -/

/-- `np.full(shape, np.nan)` restricted to the time column of one spatial
unit: every cell starts explicitly missing. -/
def npFullNaN (n : Nat) : List (Option ℚ) := List.replicate n none

/-- Error message standing for numpy's broadcast `ValueError` (the spec's
`ShapeMismatchError`). -/
def shapeMismatchMsg : String := "ShapeMismatchError: could not broadcast"

/-- numpy assignment `target[:, 0, 0] = vals` for a 1-D source: succeeds
when the lengths match, broadcasts a length-1 source over the whole slice,
and raises otherwise. The target's prior contents never survive a full-slice
assignment, and the source is never truncated or padded. -/
def assignTimeSlice (target : List (Option ℚ)) (vals : List (Option ℚ)) :
    Except String (List (Option ℚ)) :=
  if vals.length = target.length then .ok vals
  else if vals.length = 1 then .ok (List.replicate target.length (vals.headD none))
  else .error shapeMismatchMsg

/-- The state-dataset precipitation assembly (notebook lines 211–219):
a NaN-filled array over the state time axis receives the sliced,
differenced, converted precipitation series. -/
def state_prec_assembly (cum : List ℚ) : Except String (List (Option ℚ)) :=
  assignTimeSlice (npFullNaN state_dates.length) (prec_vals_state cum)

/-- Decidable formalization of "consecutive timestamps differ by exactly
one calendar day" over a list of day ordinals. -/
def contigDaily : List Nat → Bool
  | [] => true
  | [_] => true
  | a :: b :: rest => (b == a + 1) && contigDaily (b :: rest)

/-- A concrete cumulative precipitation series with exactly 90 raw rows
(hence only 89 increments after differencing). -/
def cum90 : List ℚ := 0 :: List.replicate 89 1

/-! ## Helper lemmas -/

theorem diffAux_length (p : ℚ) (xs : List ℚ) : (diffAux p xs).length = xs.length := by
  induction xs generalizing p with
  | nil => rfl
  | cons y rest ih => simp [diffAux, ih]

theorem diff_length (xs : List ℚ) : (diff xs).length = xs.length := by
  cases xs with
  | nil => rfl
  | cons x rest => simp [diff, diffAux_length]

theorem diffAux_eq_zipWith (p : ℚ) (xs : List ℚ) :
    diffAux p xs = List.zipWith (fun a b => some (a - b)) xs (p :: xs) := by
  induction xs generalizing p with
  | nil => rfl
  | cons y rest ih => simp [diffAux, List.zipWith, ih]

theorem incrOpt_eq_zipWith (xs : List ℚ) :
    incrOpt xs = List.zipWith (fun a b => some (a - b)) xs.tail xs := by
  cases xs with
  | nil => rfl
  | cons x rest => simp [incrOpt, diff, diffAux_eq_zipWith]

theorem incrOpt_length (xs : List ℚ) : (incrOpt xs).length = xs.length - 1 := by
  simp [incrOpt, diff_length]

theorem diffAux_sum (p : ℚ) (xs : List ℚ) :
    ((diffAux p xs).reduceOption).sum = xs.getLastD p - p := by
  induction xs generalizing p with
  | nil => simp [diffAux]
  | cons y rest ih =>
      rw [List.getLastD_cons]
      simp [diffAux, ih]

theorem incrOpt_sum (x : ℚ) (rest : List ℚ) :
    ((incrOpt (x :: rest)).reduceOption).sum = (x :: rest).getLastD 0 - x := by
  rw [List.getLastD_cons]
  simp [incrOpt, diff, diffAux_sum]

theorem incrOpt_getD (xs : List ℚ) (i : Nat) (hi : i + 1 < xs.length) :
    (incrOpt xs).getD i none = some (xs.getD (i + 1) 0 - xs.getD i 0) := by
  have h2 : i < xs.length := by omega
  have hlen : i < (List.zipWith (fun a b => some (a - b)) xs.tail xs).length := by
    rw [List.length_zipWith, List.length_tail]; omega
  rw [incrOpt_eq_zipWith, List.getD_eq_getElem _ _ hlen, List.getElem_zipWith,
    List.getElem_tail, List.getD_eq_getElem _ _ hi, List.getD_eq_getElem _ _ h2]

theorem prec_vals_forcing_getD (cum : List ℚ) (i : Nat) (hi : i + 1 < cum.length) :
    (prec_vals_forcing cum).getD i none =
      some (inchToMm (cum.getD (i + 1) 0 - cum.getD i 0)) := by
  have hl : i < (incrOpt cum).length := by rw [incrOpt_length]; omega
  have hm : i < ((incrOpt cum).map (Option.map inchToMm)).length := by
    rw [List.length_map]; exact hl
  show ((incrOpt cum).map (Option.map inchToMm)).getD i none = _
  rw [List.getD_eq_getElem _ _ hm, List.getElem_map, ← List.getD_eq_getElem _ _ hl,
    incrOpt_getD cum i hi]
  rfl

theorem contigDaily_range' (n lo : Nat) : contigDaily (List.range' lo n) = true := by
  induction n generalizing lo with
  | zero => rfl
  | succ m ih =>
      rw [List.range'_succ]
      cases m with
      | zero => rfl
      | succ k =>
          have h := ih (lo + 1)
          rw [List.range'_succ] at h
          rw [List.range'_succ]
          simp [contigDaily, h]

theorem dateRangeOrd_eq_range' (lo hi : Nat) :
    dateRangeOrd lo hi = List.range' lo (hi + 1 - lo) := by
  rw [dateRangeOrd, List.range'_eq_map_range]

theorem range'_headD (lo n : Nat) (h : 0 < n) : (List.range' lo n).headD 0 = lo := by
  cases n with
  | zero => omega
  | succ m => rw [List.range'_succ]; rfl

theorem range'_getLastD (lo n : Nat) : (List.range' lo (n + 1)).getLastD 0 = lo + n := by
  rw [List.range'_concat, List.getLastD_concat]
  omega

/-! ## Claims -/

/-- C1: for every ordered cumulative precipitation sequence of length
N ≥ 2, the cumulative-to-incremental transform
(`.diff().values[1:]`) produces exactly N−1 increments with
`increment[i] = cumulative[i+1] − cumulative[i]` (the first raw reading is
discarded), and the sum of the increments equals
`cumulative[-1] − cumulative[0]`. -/
theorem C1_cumulative_to_incremental (cum : List ℚ) (h : 2 ≤ cum.length) :
    (incrOpt cum).length = cum.length - 1 ∧
    (∀ i, i + 1 < cum.length →
      (incrOpt cum).getD i none = some (cum.getD (i + 1) 0 - cum.getD i 0)) ∧
    ((incrOpt cum).reduceOption).sum = cum.getLastD 0 - cum.headD 0 := by
  refine ⟨incrOpt_length cum, fun i hi => incrOpt_getD cum i hi, ?_⟩
  cases cum with
  | nil => simp at h
  | cons x rest => simpa using incrOpt_sum x rest

/-- Witness for C1 at the concrete cumulative series `[1, 3, 2]`. -/
theorem C1_witness :
    2 ≤ ([1, 3, 2] : List ℚ).length ∧
    ((incrOpt [1, 3, 2]).length = ([1, 3, 2] : List ℚ).length - 1 ∧
     (∀ i, i + 1 < ([1, 3, 2] : List ℚ).length →
       (incrOpt [1, 3, 2]).getD i none =
         some (([1, 3, 2] : List ℚ).getD (i + 1) 0 - ([1, 3, 2] : List ℚ).getD i 0)) ∧
     ((incrOpt [1, 3, 2]).reduceOption).sum =
       ([1, 3, 2] : List ℚ).getLastD 0 - ([1, 3, 2] : List ℚ).headD 0) :=
  ⟨by norm_num, C1_cumulative_to_incremental [1, 3, 2] (by norm_num)⟩

/-- C2: the inches → millimeters conversion is the single scalar multiply
by 25.4, applied once after differencing; the cumulative input
`[0.0, 0.5, 0.5, 1.2]` inches yields increments `[0.5, 0.0, 0.7]` inches
and hence `[12.7, 0.0, 17.78]` mm. -/
theorem C2_unit_conversion :
    (∀ cum : List ℚ, prec_vals_forcing cum = (incrOpt cum).map (Option.map inchToMm)) ∧
    (∀ v : ℚ, inchToMm v = v * (254 / 10)) ∧
    incrOpt [0, 1/2, 1/2, 6/5] = [some (1/2), some 0, some (7/10)] ∧
    prec_vals_forcing [0, 1/2, 1/2, 6/5] = [some (127/10), some 0, some (889/50)] := by
  refine ⟨fun cum => rfl, fun v => rfl, ?_, ?_⟩
  · norm_num [incrOpt, diff, diffAux]
  · norm_num [prec_vals_forcing, diff, diffAux, inchToMm]

/-- Witness for C2: the factorization conjunct evaluated at a concrete input. -/
theorem C2_witness :
    prec_vals_forcing [0, 1, 2] = (incrOpt [0, 1, 2]).map (Option.map inchToMm) :=
  C2_unit_conversion.1 [0, 1, 2]

/-- C4: the constructed state dataset's time axis ends exactly one
calendar day before the forcing dataset's first day (no gap, no overlap),
is internally gap-free, and has length ≥ the required 90-day lookback. -/
theorem C4_state_alignment :
    state_dates.getLastD 0 + 1 = forcing_dates.headD 0 ∧
    contigDaily state_dates = true ∧
    state_dates.length = 90 ∧
    90 ≤ state_dates.length := by
  refine ⟨by decide, by decide, by decide, by decide⟩

/-- C3 counterexample: for a loaded cumulative series of exactly 90 rows
(length ≥ L = 90, as the claim requires), the state slice
`.diff().values[-90:]` is NOT the last 90 entries of the already-differenced
series — the differenced series only has 89 entries, and the code's window
keeps the undefined (NaN) first diff entry at its head. -/
theorem C3_counterexample :
    90 ≤ cum90.length ∧
    prec_vals_state cum90 ≠ (takeLast 90 (incrOpt cum90)).map (Option.map inchToMm) ∧
    (prec_vals_state cum90).headD (some 0) = none := by
  refine ⟨by simp [cum90], ?_, ?_⟩
  · intro hcontra
    have hlen := congrArg List.length hcontra
    simp [prec_vals_state, takeLast, diff_length, incrOpt_length, cum90] at hlen
  · have htl : takeLast 90 (diff cum90) = diff cum90 := by
      simp [takeLast, diff_length, cum90]
    rw [prec_vals_state, htl]
    simp [cum90, diff]

/-- C3 (amended): when the raw series has at least L+1 = 91 rows (so that
at least L increments exist), the state window is exactly the last 90
entries of the already-differenced precipitation series; the last 90
entries of the raw temperature series are always taken, and a 92-row
temperature series yields rows 3..92 (1-indexed). -/
theorem C3_spinup_window_amended (cum traw : List ℚ)
    (hc : 91 ≤ cum.length) :
    prec_vals_state cum = (takeLast 90 (incrOpt cum)).map (Option.map inchToMm) ∧
    temp_vals_state traw = takeLast 90 traw ∧
    (traw.length = 92 → temp_vals_state traw = traw.drop 2) := by
  refine ⟨?_, rfl, ?_⟩
  · rw [prec_vals_state, takeLast, takeLast, incrOpt_length, incrOpt, List.drop_drop,
      diff_length]
    congr 2
    omega
  · intro h92
    rw [temp_vals_state, takeLast, h92]

/-- Witness for C3 (amended) at a 91-row cumulative series and a 92-row
temperature series. -/
theorem C3_witness :
    91 ≤ ((0 : ℚ) :: List.replicate 90 1).length ∧
    (prec_vals_state ((0 : ℚ) :: List.replicate 90 1) =
      (takeLast 90 (incrOpt ((0 : ℚ) :: List.replicate 90 1))).map (Option.map inchToMm) ∧
     temp_vals_state (List.replicate 92 (5 : ℚ)) = takeLast 90 (List.replicate 92 (5 : ℚ)) ∧
     ((List.replicate 92 (5 : ℚ)).length = 92 →
       temp_vals_state (List.replicate 92 (5 : ℚ)) = (List.replicate 92 (5 : ℚ)).drop 2)) :=
  ⟨by simp, C3_spinup_window_amended _ _ (by simp)⟩

/-- C7: a cumulative decrease (counter reset) yields a negative increment
that is passed through unchanged — the transform output at that position
is exactly the raw difference (converted), with no clamping. -/
theorem C7_negative_passthrough (cum : List ℚ) (i : Nat) (hi : i + 1 < cum.length)
    (hneg : cum.getD (i + 1) 0 < cum.getD i 0) :
    (incrOpt cum).getD i none = some (cum.getD (i + 1) 0 - cum.getD i 0) ∧
    (prec_vals_forcing cum).getD i none =
      some (inchToMm (cum.getD (i + 1) 0 - cum.getD i 0)) ∧
    cum.getD (i + 1) 0 - cum.getD i 0 < 0 ∧
    inchToMm (cum.getD (i + 1) 0 - cum.getD i 0) < 0 := by
  have hlt : cum.getD (i + 1) 0 - cum.getD i 0 < 0 := by linarith
  refine ⟨incrOpt_getD cum i hi, prec_vals_forcing_getD cum i hi, hlt, ?_⟩
  have : (0 : ℚ) < 254 / 10 := by norm_num
  exact mul_neg_of_neg_of_pos hlt this

/-- Witness for C7 at the cumulative series `[5, 2]` (a counter reset at
index 0): the increment `−3` inches, `−76.2` mm, flows through unclamped. -/
theorem C7_witness :
    (0 + 1 < ([5, 2] : List ℚ).length ∧
      ([5, 2] : List ℚ).getD 1 0 < ([5, 2] : List ℚ).getD 0 0) ∧
    ((incrOpt [5, 2]).getD 0 none =
        some (([5, 2] : List ℚ).getD 1 0 - ([5, 2] : List ℚ).getD 0 0) ∧
      (prec_vals_forcing [5, 2]).getD 0 none =
        some (inchToMm (([5, 2] : List ℚ).getD 1 0 - ([5, 2] : List ℚ).getD 0 0)) ∧
      ([5, 2] : List ℚ).getD 1 0 - ([5, 2] : List ℚ).getD 0 0 < 0 ∧
      inchToMm (([5, 2] : List ℚ).getD 1 0 - ([5, 2] : List ℚ).getD 0 0) < 0) :=
  ⟨⟨by norm_num, by norm_num [List.getD]⟩,
    C7_negative_passthrough [5, 2] 0 (by norm_num) (by norm_num [List.getD])⟩

/-- C8: every time axis built by `pd.date_range(lo, hi)` is an ordered,
gap-free daily sequence spanning `[lo, hi]` inclusive: its length is the
inclusive day count, its first entry is `lo`, its last is `hi`, and
consecutive entries differ by exactly one day (so no gap can ever arise
from this constructor). -/
theorem C8_time_axis_contiguity (lo hi : Nat) (h : lo ≤ hi) :
    (dateRangeOrd lo hi).length = hi - lo + 1 ∧
    (dateRangeOrd lo hi).headD 0 = lo ∧
    (dateRangeOrd lo hi).getLastD 0 = hi ∧
    contigDaily (dateRangeOrd lo hi) = true := by
  have hn : hi + 1 - lo = (hi - lo) + 1 := by omega
  rw [dateRangeOrd_eq_range', hn]
  refine ⟨by simp, range'_headD lo _ (by omega), ?_, contigDaily_range' _ lo⟩
  rw [range'_getLastD]
  omega

/-- Witness for C8 at the forcing axis bounds (1/1/2010 – 12/31/2010). -/
theorem C8_witness :
    toOrd 2010 1 1 ≤ toOrd 2010 12 31 ∧
    ((dateRangeOrd (toOrd 2010 1 1) (toOrd 2010 12 31)).length =
        toOrd 2010 12 31 - toOrd 2010 1 1 + 1 ∧
      (dateRangeOrd (toOrd 2010 1 1) (toOrd 2010 12 31)).headD 0 = toOrd 2010 1 1 ∧
      (dateRangeOrd (toOrd 2010 1 1) (toOrd 2010 12 31)).getLastD 0 = toOrd 2010 12 31 ∧
      contigDaily (dateRangeOrd (toOrd 2010 1 1) (toOrd 2010 12 31)) = true) :=
  ⟨by decide, C8_time_axis_contiguity _ _ (by decide)⟩

/-- C5 counterexample: a per-variable series of length 1 differs from the
365-entry time axis, yet numpy assignment silently broadcasts it over the
whole slice instead of failing — refuting "every length mismatch fails and
is never silently broadcast". -/
theorem C5_counterexample :
    ([some (1 : ℚ)] : List (Option ℚ)).length ≠ (npFullNaN 365).length ∧
    assignTimeSlice (npFullNaN 365) [some (1 : ℚ)] =
      .ok (List.replicate 365 (some (1 : ℚ))) := by
  constructor
  · simp [npFullNaN]
  · simp [assignTimeSlice, npFullNaN]

/-- C5 (amended): a per-variable series whose length differs from the
declared time-axis length fails with the shape-mismatch (broadcast) error
— and is never truncated or padded — except for a length-1 series, which
numpy silently broadcasts over the axis. -/
theorem C5_shape_mismatch_amended (target vals : List (Option ℚ))
    (hne : vals.length ≠ target.length) (h1 : vals.length ≠ 1) :
    assignTimeSlice target vals = .error shapeMismatchMsg ∧
    ∀ out, assignTimeSlice target vals ≠ .ok out := by
  have herr : assignTimeSlice target vals = .error shapeMismatchMsg := by
    rw [assignTimeSlice, if_neg hne, if_neg h1]
  exact ⟨herr, fun out hok => by rw [herr] at hok; exact Except.noConfusion hok⟩

/-- Witness for C5 (amended): series of length 364 against the 365-entry
axis fails with the shape-mismatch error (not zero-padded). -/
theorem C5_witness :
    ((List.replicate 364 (some (0 : ℚ))).length ≠ (npFullNaN 365).length ∧
      (List.replicate 364 (some (0 : ℚ))).length ≠ 1) ∧
    assignTimeSlice (npFullNaN 365) (List.replicate 364 (some (0 : ℚ))) =
      .error shapeMismatchMsg :=
  ⟨⟨by simp [npFullNaN], by simp⟩,
    (C5_shape_mismatch_amended (npFullNaN 365) (List.replicate 364 (some 0))
      (by simp [npFullNaN]) (by simp)).1⟩

/-- C6 counterexample: with exactly 90 raw rows only 89 increments remain
after differencing (fewer than L = 90), yet the state assembly raises no
error at all: the 90-entry slice `.diff().values[-90:]` (whose first entry
is the undefined NaN) is accepted as a full window. -/
theorem C6_counterexample :
    (incrOpt cum90).length = 89 ∧
    state_prec_assembly cum90 = .ok (prec_vals_state cum90) ∧
    (prec_vals_state cum90).length = 90 ∧
    (prec_vals_state cum90).getD 0 (some 0) = none := by
  have hsd : state_dates.length = 90 := by decide
  have hlen : (prec_vals_state cum90).length = 90 := by
    simp [prec_vals_state, takeLast, diff_length, cum90]
  refine ⟨by simp [incrOpt_length, cum90], ?_, hlen, ?_⟩
  · rw [state_prec_assembly, assignTimeSlice,
      if_pos (by simp [npFullNaN, hsd, hlen])]
  · have htl : takeLast 90 (diff cum90) = diff cum90 := by
      simp [takeLast, diff_length, cum90]
    rw [prec_vals_state, htl]
    simp [cum90, diff]

/-- C6 (amended): with fewer than 90 raw rows the state assembly fails —
but with numpy's shape-mismatch (broadcast) error, not a dedicated
`InsufficientHistoryError` — unless the series has exactly one row, in
which case its single NaN diff entry is broadcast over the whole window;
and (per the counterexample) exactly 90 raw rows raise nothing. -/
theorem C6_insufficient_history_amended (cum : List ℚ) (hshort : cum.length < 90) :
    (cum.length ≠ 1 → state_prec_assembly cum = .error shapeMismatchMsg) ∧
    (cum.length = 1 → state_prec_assembly cum = .ok (List.replicate 90 none)) := by
  have hsd : state_dates.length = 90 := by decide
  have hv : (prec_vals_state cum).length = cum.length := by
    simp only [prec_vals_state, List.length_map, takeLast, List.length_drop, diff_length]
    omega
  constructor
  · intro h1
    have hne : (prec_vals_state cum).length ≠ (npFullNaN state_dates.length).length := by
      simp only [npFullNaN, List.length_replicate, hsd, hv]
      omega
    have hne1 : (prec_vals_state cum).length ≠ 1 := by rw [hv]; exact h1
    rw [state_prec_assembly, assignTimeSlice, if_neg hne, if_neg hne1]
  · intro h1
    obtain ⟨x, rfl⟩ : ∃ x, cum = [x] := by
      cases cum with
      | nil => simp at h1
      | cons a t =>
          cases t with
          | nil => exact ⟨a, rfl⟩
          | cons b t2 => simp at h1
    have hvals : prec_vals_state [x] = [none] := by
      simp [prec_vals_state, takeLast, diff, diffAux]
    rw [state_prec_assembly, hvals, hsd, assignTimeSlice]
    simp [npFullNaN]

/-- Witness for C6 (amended) at a 3-row cumulative series: the state
assembly fails with the shape-mismatch error. -/
theorem C6_witness :
    ([1, 2, 3] : List ℚ).length < 90 ∧
    state_prec_assembly [1, 2, 3] = .error shapeMismatchMsg :=
  ⟨by norm_num,
    (C6_insufficient_history_amended [1, 2, 3] (by norm_num)).1 (by norm_num)⟩

/-- C9: every cell of a freshly created variable array is explicitly
missing (NaN), never zero; a successful slice assignment yields exactly
the supplied values (or the broadcast of a single value), and a short
window (length > 1 and < the axis length) cannot partially populate the
array — it errors out. -/
theorem C9_no_silent_zero (n : Nat) :
    (∀ i, i < n → (npFullNaN n).getD i (some 0) = none) ∧
    (∀ vals out, assignTimeSlice (npFullNaN n) vals = .ok out →
      out = vals ∨ out = List.replicate n (vals.headD none)) ∧
    (∀ vals : List (Option ℚ), 1 < vals.length → vals.length < n →
      assignTimeSlice (npFullNaN n) vals = .error shapeMismatchMsg) := by
  refine ⟨?_, ?_, ?_⟩
  · intro i hi
    have h : i < (npFullNaN n).length := by simp [npFullNaN]; omega
    rw [List.getD_eq_getElem _ _ h]
    simp [npFullNaN]
  · intro vals out hok
    rw [assignTimeSlice] at hok
    by_cases hc : vals.length = (npFullNaN n).length
    · rw [if_pos hc] at hok
      exact Or.inl (Except.ok.inj hok).symm
    · rw [if_neg hc] at hok
      by_cases hc1 : vals.length = 1
      · rw [if_pos hc1] at hok
        refine Or.inr ?_
        have := (Except.ok.inj hok).symm
        simpa [npFullNaN] using this
      · rw [if_neg hc1] at hok
        exact absurd hok (fun h => Except.noConfusion h)
  · intro vals h1 hn
    have hne : vals.length ≠ (npFullNaN n).length := by simp [npFullNaN]; omega
    have hne1 : vals.length ≠ 1 := by omega
    rw [assignTimeSlice, if_neg hne, if_neg hne1]

/-- Witness for C9 at a 3-entry axis: the initial cell is missing, not 0. -/
theorem C9_witness : (npFullNaN 3).getD 0 (some 0) = none :=
  (C9_no_silent_zero 3).1 0 (by decide)

/-- C10: forcing assembly drops the first raw temperature row
(`values[1:]`) although temperatures are not differenced, so the
precipitation increments and both temperature series all have length
N−1 for N equal-length raw inputs — matching the 365-day forcing axis
when N = 366 — keeping the three variables row-aligned. -/
theorem C10_row_alignment (cum tmin tmax : List ℚ)
    (hpt : cum.length = tmin.length) (htt : tmin.length = tmax.length) :
    temp_vals_forcing tmin = tmin.drop 1 ∧
    (temp_vals_forcing tmin).length = cum.length - 1 ∧
    (temp_vals_forcing tmax).length = cum.length - 1 ∧
    (prec_vals_forcing cum).length = cum.length - 1 ∧
    (cum.length = 366 → (prec_vals_forcing cum).length = forcing_dates.length) := by
  have hf : forcing_dates.length = 365 := by decide
  have hp : (prec_vals_forcing cum).length = cum.length - 1 := by
    simp [prec_vals_forcing, diff_length]
  refine ⟨rfl, ?_, ?_, hp, ?_⟩
  · simp [temp_vals_forcing, hpt]
  · simp [temp_vals_forcing, hpt, htt]
  · intro h366
    rw [hp, h366, hf]

/-- Witness for C10 at three 2-row raw series. -/
theorem C10_witness :
    (([10, 11] : List ℚ).length = ([0, 1] : List ℚ).length ∧
      ([0, 1] : List ℚ).length = ([7, 8] : List ℚ).length) ∧
    (temp_vals_forcing [0, 1] = ([0, 1] : List ℚ).drop 1 ∧
      (temp_vals_forcing [0, 1]).length = ([10, 11] : List ℚ).length - 1 ∧
      (temp_vals_forcing [7, 8]).length = ([10, 11] : List ℚ).length - 1 ∧
      (prec_vals_forcing [10, 11]).length = ([10, 11] : List ℚ).length - 1 ∧
      (([10, 11] : List ℚ).length = 366 →
        (prec_vals_forcing [10, 11]).length = forcing_dates.length)) :=
  ⟨⟨rfl, rfl⟩, C10_row_alignment [10, 11] [0, 1] [7, 8] rfl rfl⟩

end MetSimTut
